import Mathlib

/-!
Verification of the authentication core of the notes-app backend.

The embedding follows `src/backend/src/controllers/auth.controller.ts` and
`src/backend/src/models/User.model.ts`:

* A persisted `User` document becomes `UserDoc`; the Mongo collection becomes
  a `Store` (a list of documents).  `findOne {email}` / `findById` become
  `findOne` / `findById` (first matching document).
* `Math.random()` is modelled by a rational `r` with `0 ≤ r < 1`;
  `generateOTP` is `Math.floor(100000 + r * 900000).toString()`.
* Timestamps (`Date.now()`, `otpExpiry`) are naturals (milliseconds).
* The external collaborators (bcryptjs, jsonwebtoken, the Google verifier,
  nodemailer) are not part of the repository; they are modelled from the
  spec at their interfaces, each marked `Modelled from the spec:` below.
* Each request handler becomes a function `Store → ... → Store × AuthResult`;
  the `Store` component is the post-state of the database, the `AuthResult`
  is what the handler responds with.  A fallible awaited side effect that the
  handler merely surfaces as a 500 (the `sendOTP` email dispatch) becomes a
  boolean parameter `emailOk`.
-/

/-- A persisted User document (`UserSchema` in `User.model.ts`).
The Mongo `_id` is an opaque identifier, modelled as a `Nat`. -/
structure UserDoc where
  id : Nat
  email : String
  name : String
  dateOfBirth : Option Nat := none
  password : Option String := none
  googleId : Option String := none
  isVerified : Bool := false
  otp : Option String := none
  otpExpiry : Option Nat := none
deriving Repr, DecidableEq

/-- The user collection. -/
abbrev Store := List UserDoc

/-- `User.findOne({ email })`: first document whose email matches. -/
def findOne (store : Store) (email : String) : Option UserDoc :=
  store.find? (fun u => u.email == email)

/-- `User.findById(id)`: first document whose id matches. -/
def findById (store : Store) (id : Nat) : Option UserDoc :=
  store.find? (fun u => u.id == id)

/-- Saving a fetched document writes it back over the stored document with
the same id (full-document replace, per the spec's persistence interface). -/
def saveReplace (store : Store) (u : UserDoc) : Store :=
  store.map (fun v => if v.id = u.id then u else v)

/-- Modelled from the spec: `bcrypt.hash(p, cost)` from the external bcryptjs
library — "a salted one-way hash function"; "the cost factor is fixed".
The digest itself is abstracted (one-wayness is outside the embedding);
what matters here is that the output records the cost and the salt and is
never the plaintext, which this model makes provable: the output strictly
extends the input. -/
def bcryptHash (cost salt : Nat) (p : String) : String :=
  "$2b$" ++ toString cost ++ "$" ++ toString salt ++ "$" ++ p

/-- Modelled from the spec: `bcrypt.compare(p, h)` — true iff `h` is a
bcrypt hash of `p` (under the salt embedded in `h`). -/
def bcryptCompare (p h : String) : Bool :=
  h.endsWith ("$" ++ p)

/-- `UserSchema.pre("save")` from `User.model.ts`:
`if (!this.isModified("password") || !this.password) return next();
 this.password = await bcrypt.hash(this.password, 10);`
JavaScript `!this.password` is true when the field is absent or the empty
string.  The fresh salt bcryptjs draws is the `salt` parameter. -/
def preSave (passwordModified : Bool) (salt : Nat) (u : UserDoc) : UserDoc :=
  if passwordModified ∧ u.password ≠ none ∧ u.password ≠ some "" then
    { u with password := u.password.map (bcryptHash 10 salt) }
  else u

/-- `UserSchema.methods.comparePassword` from `User.model.ts`:
`if (!this.password) return false; return bcrypt.compare(password, this.password);`
(again `!this.password` covers both the absent field and the empty string). -/
def comparePassword (u : UserDoc) (p : String) : Bool :=
  match u.password with
  | none => false
  | some h => if h = "" then false else bcryptCompare p h

/-- The numeric value inside `generateOTP`:
`Math.floor(100000 + Math.random() * 900000)` with `Math.random() = r`. -/
def genOTPNat (r : ℚ) : Nat :=
  (Int.floor ((100000 : ℚ) + r * 900000)).toNat

/-- `generateOTP` from `auth.controller.ts`:
`Math.floor(100000 + Math.random() * 900000).toString()`. -/
def generateOTP (r : ℚ) : String :=
  Nat.repr (genOTPNat r)

/-- The OTP validity window: `10 * 60 * 1000` milliseconds. -/
def otpWindowMs : Nat := 10 * 60 * 1000

/-- Modelled from the spec: the session token minted by
`jwt.sign({ userId }, JWT_SECRET, { expiresIn })` from the external
jsonwebtoken library — "carries the User id as its subject claim".
Signature and expiry are configuration, not logic; the embedding keeps the
subject binding. -/
structure SessionToken where
  userId : Nat
deriving Repr, DecidableEq

/-- `generateToken(userId)` from `auth.controller.ts`. -/
def generateToken (userId : Nat) : SessionToken :=
  ⟨userId⟩

/-- What a handler responds with: one success shape per handler, or an
error `(status, message)` exactly as in the source. -/
inductive AuthResult where
  | okCreated (userId : Nat) : AuthResult
  | okOtpSent (userId : Nat) : AuthResult
  | okResent : AuthResult
  | okToken (token : SessionToken) (id : Nat) (email name : String) : AuthResult
  | err (status : Nat) (msg : String) : AuthResult
deriving Repr, DecidableEq

/-- `signup` from `auth.controller.ts`.  `newId` is the id Mongo assigns to
the new document, `salt` the salt bcryptjs draws in the pre-save hook,
`emailOk` whether the awaited `sendOTP` dispatch succeeds.  The catch block
turns a dispatch failure into the 500 error *after* the document was saved. -/
def signup (store : Store) (email name : String) (dateOfBirth : Option Nat)
    (password : String) (r : ℚ) (now newId salt : Nat) (emailOk : Bool) :
    Store × AuthResult :=
  match findOne store email with
  | some _ => (store, .err 400 "User already exists")
  | none =>
    let otp := generateOTP r
    let u : UserDoc :=
      { id := newId, email := email, name := name, dateOfBirth := dateOfBirth,
        password := some password, googleId := none, isVerified := false,
        otp := some otp, otpExpiry := some (now + otpWindowMs) }
    -- a new document's set fields count as modified, so the hook hashes
    let store' := store ++ [preSave true salt u]
    if emailOk then (store', .okCreated newId)
    else (store', .err 500 "Failed to create account")

/-- The guard of `verifyOTP`:
`user.otp !== otp || !user.otpExpiry || user.otpExpiry < new Date()`. -/
def otpCheckFails (user : UserDoc) (otp : String) (now : Nat) : Bool :=
  (user.otp != some otp) ||
    (match user.otpExpiry with
     | none => true
     | some e => decide (e < now))

/-- `verifyOTP` from `auth.controller.ts`. -/
def verifyOTP (store : Store) (userId : Nat) (otp : String) (now : Nat) :
    Store × AuthResult :=
  match findById store userId with
  | none => (store, .err 404 "User not found")
  | some user =>
    if otpCheckFails user otp now then
      (store, .err 400 "Invalid or expired OTP")
    else
      let user' : UserDoc :=
        { user with isVerified := true, otp := none, otpExpiry := none }
      -- the save does not modify the password, so the hook does not rehash
      (saveReplace store (preSave false 0 user'),
       .okToken (generateToken user.id) user.id user.email user.name)

/-- `signin` from `auth.controller.ts`: issues a fresh OTP for the account
with the given email; the save happens before the awaited dispatch. -/
def signin (store : Store) (email : String) (r : ℚ) (now : Nat)
    (emailOk : Bool) : Store × AuthResult :=
  match findOne store email with
  | none => (store, .err 404 "User not found")
  | some user =>
    let user' : UserDoc :=
      { user with otp := some (generateOTP r),
                  otpExpiry := some (now + otpWindowMs) }
    let store' := saveReplace store (preSave false 0 user')
    if emailOk then (store', .okOtpSent user.id)
    else (store', .err 500 "Failed to send OTP")

/-- `resendOTP` from `auth.controller.ts`: same issuance, looked up by id. -/
def resendOTP (store : Store) (userId : Nat) (r : ℚ) (now : Nat)
    (emailOk : Bool) : Store × AuthResult :=
  match findById store userId with
  | none => (store, .err 404 "User not found")
  | some user =>
    let user' : UserDoc :=
      { user with otp := some (generateOTP r),
                  otpExpiry := some (now + otpWindowMs) }
    let store' := saveReplace store (preSave false 0 user')
    if emailOk then (store', .okResent)
    else (store', .err 500 "Failed to resend OTP")

/-- Modelled from the spec: the claim set the external Google verifier
returns for a valid assertion — `{subject, email, name}`.  An invalid or
payload-less ticket is `none` at the call site. -/
structure GooglePayload where
  sub : String
  email : String
  name : String
deriving Repr, DecidableEq

/-- `googleAuth` from `auth.controller.ts`.  `payload` is the verifier's
output (`none` models a missing payload / invalid token, handled by the
controller's 400), `newId` the id Mongo would assign on auto-provisioning. -/
def googleAuth (store : Store) (payload : Option GooglePayload) (newId : Nat) :
    Store × AuthResult :=
  match payload with
  | none => (store, .err 400 "Invalid token")
  | some p =>
    match findOne store p.email with
    | some user =>
      (store, .okToken (generateToken user.id) user.id user.email user.name)
    | none =>
      let u : UserDoc :=
        { id := newId, email := p.email, name := p.name, dateOfBirth := none,
          password := none, googleId := some p.sub, isVerified := true,
          otp := none, otpExpiry := none }
      -- new document, but no password field, so the hook is a no-op
      (store ++ [preSave true 0 u],
       .okToken (generateToken newId) newId u.email u.name)

/-- The pairing invariant of the spec: `otpCode` and `otpExpiry` are both
present or both absent on a document. -/
def otpPaired (u : UserDoc) : Prop :=
  u.otp.isSome = u.otpExpiry.isSome

/-- The invariant over a whole store. -/
def storeInv (s : Store) : Prop :=
  ∀ u ∈ s, otpPaired u

/-- A code value is attainable by `generateOTP` if some random draw
produces it. -/
def otpAttainable (k : Nat) : Prop :=
  ∃ r : ℚ, 0 ≤ r ∧ r < 1 ∧ genOTPNat r = k

/-- A store whose single user holds the code "123456" expiring at time 1000. -/
def boundaryStore : Store :=
  [{ id := 1, email := "a@x.com", name := "Ann", password := some "ph",
     otp := some "123456", otpExpiry := some 1000 }]

/-- A concrete password-flow account used to instantiate theorems. -/
def bobUser : UserDoc :=
  { id := 2, email := "b@x.com", name := "Bob", password := some "ph" }

/-- A second concrete account used to instantiate theorems. -/
def cedUser : UserDoc :=
  { id := 3, email := "c@x.com", name := "Ced", password := some "ph" }

/-- Every document in `post` takes its password from a same-id document of
`pre`: no operation invents or re-exposes a password value. -/
def passwordsPreserved (pre post : Store) : Prop :=
  ∀ v ∈ post, ∃ v₀ ∈ pre, v₀.id = v.id ∧ v₀.password = v.password

/-- A store with one outstanding challenge: code "123456" expiring at
600000 ms. -/
def c7Store : Store :=
  [{ id := 1, email := "a@x.com", name := "Ann", password := some "ph",
     otp := some "123456", otpExpiry := some 600000 }]

/-! ## Helper lemmas about the embedding -/

/-- A save that does not modify the password leaves the document unchanged
(the pre-save hook returns immediately). -/
theorem preSave_not_modified (salt : Nat) (u : UserDoc) :
    preSave false salt u = u := by
  simp [preSave]

/-- The pre-save hook only ever touches the password field. -/
theorem preSave_otp (m : Bool) (salt : Nat) (u : UserDoc) :
    (preSave m salt u).otp = u.otp := by
  unfold preSave
  split <;> rfl

/-- The pre-save hook only ever touches the password field. -/
theorem preSave_otpExpiry (m : Bool) (salt : Nat) (u : UserDoc) :
    (preSave m salt u).otpExpiry = u.otpExpiry := by
  unfold preSave
  split <;> rfl

/-- The pre-save hook only ever touches the password field. -/
theorem preSave_email (m : Bool) (salt : Nat) (u : UserDoc) :
    (preSave m salt u).email = u.email := by
  unfold preSave
  split <;> rfl

/-- The pre-save hook only ever touches the password field. -/
theorem preSave_id_field (m : Bool) (salt : Nat) (u : UserDoc) :
    (preSave m salt u).id = u.id := by
  unfold preSave
  split <;> rfl

/-- The modelled bcrypt output strictly extends the plaintext, so the
stored hash can never equal the plaintext password. -/
theorem bcryptHash_ne_plain (cost salt : Nat) (p : String) :
    bcryptHash cost salt p ≠ p := by
  intro h
  have hlen := congrArg String.length h
  simp only [bcryptHash, String.length_append] at hlen
  have h4 : "$2b$".length = 4 := rfl
  have h1 : "$".length = 1 := rfl
  rw [h4, h1] at hlen
  omega

/-- A found document was stored and matches the id it was looked up by. -/
theorem findById_mem_and_id (store : Store) (uid : Nat) (u : UserDoc)
    (h : findById store uid = some u) : u ∈ store ∧ u.id = uid := by
  refine ⟨List.mem_of_find?_eq_some h, ?_⟩
  have hp := List.find?_some h
  simpa using hp

/-- A found document was stored and matches the email it was looked up by. -/
theorem findOne_mem_and_email (store : Store) (email : String) (u : UserDoc)
    (h : findOne store email = some u) : u ∈ store ∧ u.email = email := by
  refine ⟨List.mem_of_find?_eq_some h, ?_⟩
  have hp := List.find?_some h
  simpa using hp

/-- `find?` skips a prefix in which nothing matches. -/
theorem find?_append_of_none {α : Type} (p : α → Bool) (l₁ l₂ : List α)
    (h : l₁.find? p = none) : (l₁ ++ l₂).find? p = l₂.find? p := by
  induction l₁ with
  | nil => rfl
  | cons a tl ih =>
    rw [List.find?_cons] at h
    cases hpa : p a with
    | true => rw [hpa] at h; exact absurd h (by simp)
    | false =>
      rw [hpa] at h
      rw [List.cons_append, List.find?_cons, hpa]
      exact ih h

/-- Writing back a document with the looked-up id makes the write-back the
document found at that id afterwards. -/
theorem findById_saveReplace (store : Store) (uid : Nat) (u w : UserDoc)
    (hfind : findById store uid = some u) (hw : w.id = u.id) :
    findById (saveReplace store w) uid = some w := by
  have huid : u.id = uid := (findById_mem_and_id store uid u hfind).2
  induction store with
  | nil => simp [findById] at hfind
  | cons v tl ih =>
    unfold findById at hfind ⊢
    rw [List.find?_cons] at hfind
    cases hv : (v.id == uid) with
    | true =>
      rw [hv] at hfind
      have hvu : v = u := by simpa using hfind
      have hvw : v.id = w.id := by rw [hvu, hw.symm]
      simp only [saveReplace, List.map_cons, if_pos hvw, List.find?_cons]
      have : (w.id == uid) = true := by
        rw [hw, huid]; simp
      rw [this]
    | false =>
      rw [hv] at hfind
      have hvne : v.id ≠ w.id := by
        intro hcontra
        rw [hcontra, hw, huid] at hv
        simp at hv
      simp only [saveReplace, List.map_cons, if_neg hvne, List.find?_cons, hv]
      exact ih hfind

/-- The success branch of the `verifyOTP` guard: the guard passes exactly
when the stored code matches and the stored expiry has not yet passed
(`now ≤ expiry` — the source's `otpExpiry < new Date()` is exclusive). -/
theorem otpCheckFails_eq_false_iff (u : UserDoc) (c : String) (now : Nat) :
    otpCheckFails u c now = false ↔
      u.otp = some c ∧ ∃ e, u.otpExpiry = some e ∧ now ≤ e := by
  unfold otpCheckFails
  cases he : u.otpExpiry with
  | none => simp [he]
  | some e =>
    simp only [he, Bool.or_eq_false_iff, bne_eq_false_iff_eq,
      decide_eq_false_iff_not, Nat.not_lt]
    constructor
    · rintro ⟨h1, h2⟩
      exact ⟨h1, e, rfl, h2⟩
    · rintro ⟨h1, e', he', h2⟩
      cases he'
      exact ⟨h1, h2⟩

/-- `Math.floor(100000 + r * 900000)` is at least 100000 for `0 ≤ r`:
the generated code never has a leading zero. -/
theorem genOTPNat_lower (r : ℚ) (h0 : 0 ≤ r) : 100000 ≤ genOTPNat r := by
  unfold genOTPNat
  have hf : (100000 : ℤ) ≤ Int.floor ((100000 : ℚ) + r * 900000) := by
    rw [Int.le_floor]
    push_cast
    nlinarith
  omega

/-- `Math.floor(100000 + r * 900000)` is at most 999999 for `r < 1`. -/
theorem genOTPNat_upper (r : ℚ) (h1 : r < 1) : genOTPNat r ≤ 999999 := by
  unfold genOTPNat
  have hf : Int.floor ((100000 : ℚ) + r * 900000) < 1000000 := by
    rw [Int.floor_lt]
    push_cast
    nlinarith
  omega

/-- A number between 100000 and 999999 has exactly six decimal digits. -/
theorem six_digits_of_range (n : Nat) (hl : 100000 ≤ n) (hu : n ≤ 999999) :
    (Nat.digits 10 n).length = 6 := by
  have hlen := Nat.digits_len 10 n (by norm_num) (by omega)
  have hlog : Nat.log 10 n = 5 :=
    Nat.log_eq_of_pow_le_of_lt_pow (by norm_num; omega) (by norm_num; omega)
  rw [hlen, hlog]

/-! ## Claims -/

/-- C8: for every User with no stored password hash, `comparePassword`
returns false for any input (fails closed). -/
theorem C8_comparePassword_fails_closed (u : UserDoc) (p : String)
    (h : u.password = none) : comparePassword u p = false := by
  simp [comparePassword, h]

/-- C8 witness: a concrete federated-style account with no password hash. -/
theorem C8_comparePassword_fails_closed_witness :
    ({ id := 7, email := "b@x.com", name := "Bo" } : UserDoc).password = none ∧
    comparePassword { id := 7, email := "b@x.com", name := "Bo" } "pw" = false :=
  ⟨rfl, C8_comparePassword_fails_closed _ "pw" rfl⟩

/-- C4: signup with an email that already exists fails with the duplicate
error and leaves the store exactly as it was. -/
theorem C4_signup_duplicate (store : Store) (email name : String)
    (dob : Option Nat) (pwd : String) (r : ℚ) (now newId salt : Nat)
    (ok : Bool) (u : UserDoc) (hfound : findOne store email = some u) :
    signup store email name dob pwd r now newId salt ok =
      (store, .err 400 "User already exists") := by
  simp [signup, hfound]

/-- C4 witness: a store already holding the email. -/
theorem C4_signup_duplicate_witness :
    findOne [{ id := 1, email := "a@x.com", name := "Ann" }] "a@x.com" =
      some { id := 1, email := "a@x.com", name := "Ann" } ∧
    signup [{ id := 1, email := "a@x.com", name := "Ann" }] "a@x.com" "Bob"
        none "secret1" 0 5 2 3 true =
      ([{ id := 1, email := "a@x.com", name := "Ann" }],
       .err 400 "User already exists") :=
  ⟨by decide,
   C4_signup_duplicate _ _ "Bob" none "secret1" 0 5 2 3 true
     { id := 1, email := "a@x.com", name := "Ann" } (by decide)⟩

/-- C1 counterexample: the claim says verification at exactly
`now == otpExpiry` fails with the invalid-or-expired error; the source's
guard is `user.otpExpiry < new Date()`, so at equality it SUCCEEDS and
issues a token. -/
theorem C1_boundary_counterexample :
    (verifyOTP boundaryStore 1 "123456" 1000).2 =
      .okToken (generateToken 1) 1 "a@x.com" "Ann" := by decide

/-- C1 (amended): `VerifyOTP(u, c)` succeeds iff u's stored otp equals `c`
and the expiry is present with `now ≤ otpExpiry` — the boundary is
INCLUSIVE (at `now == otpExpiry` it still succeeds); on success a single
write leaves otp and otpExpiry both absent and `isVerified = true`, and a
session token bound to u's id is returned; otherwise it fails with the
invalid-or-expired error and the store is untouched. -/
theorem C1_verifyOTP_correct (store : Store) (uid : Nat) (u : UserDoc)
    (c : String) (now : Nat) (hfind : findById store uid = some u) :
    ((verifyOTP store uid c now).2 =
        .okToken (generateToken u.id) u.id u.email u.name ↔
      u.otp = some c ∧ ∃ e, u.otpExpiry = some e ∧ now ≤ e) ∧
    ((u.otp = some c ∧ ∃ e, u.otpExpiry = some e ∧ now ≤ e) →
      (verifyOTP store uid c now).1 =
        saveReplace store
          { u with isVerified := true, otp := none, otpExpiry := none }) ∧
    (¬ (u.otp = some c ∧ ∃ e, u.otpExpiry = some e ∧ now ≤ e) →
      verifyOTP store uid c now = (store, .err 400 "Invalid or expired OTP")) := by
  have hv : verifyOTP store uid c now =
      if otpCheckFails u c now then
        (store, .err 400 "Invalid or expired OTP")
      else
        (saveReplace store
          (preSave false 0
            { u with isVerified := true, otp := none, otpExpiry := none }),
         .okToken (generateToken u.id) u.id u.email u.name) := by
    unfold verifyOTP
    rw [hfind]
  cases hchk : otpCheckFails u c now with
  | false =>
    have hs := (otpCheckFails_eq_false_iff u c now).mp hchk
    rw [hv, hchk]
    simp only [if_neg Bool.false_ne_true, preSave_not_modified]
    exact ⟨⟨fun _ => hs, fun _ => trivial⟩, fun _ => trivial, fun hn => absurd hs hn⟩
  | true =>
    have hs : ¬ (u.otp = some c ∧ ∃ e, u.otpExpiry = some e ∧ now ≤ e) := by
      intro hcon
      have hfalse := (otpCheckFails_eq_false_iff u c now).mpr hcon
      rw [hchk] at hfalse
      cases hfalse
    rw [hv, hchk]
    simp only [if_pos rfl]
    refine ⟨⟨fun h => absurd h (by simp), fun h => absurd h hs⟩,
            fun h => absurd h hs, fun _ => rfl⟩

/-- C1 witness: a fresh unexpired challenge verifies and clears the
challenge in the stored document. -/
theorem C1_verifyOTP_correct_witness :
    findById boundaryStore 1 = some
      { id := 1, email := "a@x.com", name := "Ann", password := some "ph",
        otp := some "123456", otpExpiry := some 1000 } ∧
    ((verifyOTP boundaryStore 1 "123456" 500).2 =
        .okToken (generateToken 1) 1 "a@x.com" "Ann" ↔
      (some "123456" : Option String) = some "123456" ∧
        ∃ e, (some 1000 : Option Nat) = some e ∧ 500 ≤ e) :=
  ⟨by decide,
   (C1_verifyOTP_correct boundaryStore 1
     { id := 1, email := "a@x.com", name := "Ann", password := some "ph",
       otp := some "123456", otpExpiry := some 1000 }
     "123456" 500 (by decide)).1⟩

/-- C2 counterexample: the claim says codes are drawn from 000000–999999
with leading zeros possible; the source computes
`Math.floor(100000 + Math.random() * 900000)`, whose value is at least
100000 for every draw, so the code 000000 (value 0) is never issued. -/
theorem C2_no_leading_zero_counterexample : ¬ otpAttainable 0 := by
  rintro ⟨r, h0, _, he⟩
  have := genOTPNat_lower r h0
  omega

/-- C2 (amended): every issued OTP is the decimal string of a value drawn
from 100000–999999 inclusive (exactly six digits, never a leading zero),
every value in that range is attainable, and Signup, Signin and ResendOTP
all set the stored expiry to exactly 10 minutes (600000 ms) after
issuance. -/
theorem C2_otp_generation (r : ℚ) (h0 : 0 ≤ r) (h1 : r < 1)
    (store : Store) (email name pwd : String) (dob : Option Nat)
    (now newId salt : Nat) (ok : Bool)
    (hfresh : findOne store email = none)
    (store2 : Store) (email2 : String) (r2 : ℚ) (now2 : Nat) (ok2 : Bool)
    (u2 : UserDoc) (hfound2 : findOne store2 email2 = some u2)
    (store3 : Store) (uid3 : Nat) (r3 : ℚ) (now3 : Nat) (ok3 : Bool)
    (u3 : UserDoc) (hfound3 : findById store3 uid3 = some u3) :
    100000 ≤ genOTPNat r ∧ genOTPNat r ≤ 999999 ∧
    (Nat.digits 10 (genOTPNat r)).length = 6 ∧
    generateOTP r = Nat.repr (genOTPNat r) ∧
    (∀ k, 100000 ≤ k → k ≤ 999999 → otpAttainable k) ∧
    (signup store email name dob pwd r now newId salt ok).1 =
      store ++ [preSave true salt
        { id := newId, email := email, name := name, dateOfBirth := dob,
          password := some pwd, googleId := none, isVerified := false,
          otp := some (generateOTP r),
          otpExpiry := some (now + 10 * 60 * 1000) }] ∧
    (signin store2 email2 r2 now2 ok2).1 =
      saveReplace store2 { u2 with otp := some (generateOTP r2),
                                   otpExpiry := some (now2 + 10 * 60 * 1000) } ∧
    (resendOTP store3 uid3 r3 now3 ok3).1 =
      saveReplace store3 { u3 with otp := some (generateOTP r3),
                                   otpExpiry := some (now3 + 10 * 60 * 1000) } := by
  have hl := genOTPNat_lower r h0
  have hu := genOTPNat_upper r h1
  refine ⟨hl, hu, six_digits_of_range _ hl hu, rfl, ?_, ?_, ?_, ?_⟩
  · intro k hkl hku
    refine ⟨((k : ℚ) - 100000) / 900000, ?_, ?_, ?_⟩
    · apply div_nonneg _ (by norm_num)
      have : (100000 : ℚ) ≤ (k : ℚ) := by exact_mod_cast hkl
      linarith
    · rw [div_lt_one (by norm_num)]
      have : (k : ℚ) < 1000000 := by
        have : (k : ℚ) ≤ 999999 := by exact_mod_cast hku
        linarith
      linarith
    · unfold genOTPNat
      have harg : (100000 : ℚ) + ((k : ℚ) - 100000) / 900000 * 900000 = (k : ℚ) := by
        field_simp
      rw [harg, Int.floor_natCast, Int.toNat_natCast]
  · unfold signup
    rw [hfresh]
    cases ok <;> simp [otpWindowMs]
  · unfold signin
    rw [hfound2]
    cases ok2 <;> simp [preSave_not_modified, otpWindowMs]
  · unfold resendOTP
    rw [hfound3]
    cases ok3 <;> simp [preSave_not_modified, otpWindowMs]

/-- C2 witness: a concrete draw and concrete stores for the three issuing
operations. -/
theorem C2_otp_generation_witness :
    (0 : ℚ) ≤ 1/2 ∧ (1/2 : ℚ) < 1 ∧
    findOne [] "a@x.com" = none ∧
    findOne [bobUser] "b@x.com" = some bobUser ∧
    findById [cedUser] 3 = some cedUser ∧
    100000 ≤ genOTPNat (1/2) :=
  ⟨by norm_num, by norm_num, rfl, by decide, by decide,
   (C2_otp_generation (1/2) (by norm_num) (by norm_num) [] "a@x.com" "Ann"
      "secret1" none 0 9 4 true rfl
      [bobUser] "b@x.com" (1/3) 5 true bobUser (by decide)
      [cedUser] 3 (1/4) 6 false cedUser (by decide)).1⟩

/-- C3: with a valid provider payload, when no User has the verified email
exactly one new User is appended — pre-verified, with no password hash and
googleId equal to the provider subject — and a token bound to the new id is
returned; when a User with that email exists, nothing is created and the
existing User's id is used for the token. -/
theorem C3_googleAuth_provisioning (store : Store) (p : GooglePayload)
    (newId : Nat) :
    (findOne store p.email = none →
      googleAuth store (some p) newId =
        (store ++ [{ id := newId, email := p.email, name := p.name,
                     dateOfBirth := none, password := none,
                     googleId := some p.sub, isVerified := true,
                     otp := none, otpExpiry := none }],
         .okToken (generateToken newId) newId p.email p.name)) ∧
    (∀ u, findOne store p.email = some u →
      googleAuth store (some p) newId =
        (store, .okToken (generateToken u.id) u.id u.email u.name)) := by
  constructor
  · intro h
    simp only [googleAuth]
    rw [h]
    simp [preSave]
  · intro u h
    simp only [googleAuth]
    rw [h]

/-- C3 witness: provisioning on an empty store, reuse on a store already
holding the email. -/
theorem C3_googleAuth_provisioning_witness :
    findOne [] "g@x.com" = none ∧
    findOne [{ id := 4, email := "g@x.com", name := "Gia" }] "g@x.com" =
      some { id := 4, email := "g@x.com", name := "Gia" } ∧
    googleAuth [] (some { sub := "s1", email := "g@x.com", name := "Gia" }) 4 =
      ([{ id := 4, email := "g@x.com", name := "Gia", dateOfBirth := none,
          password := none, googleId := some "s1", isVerified := true,
          otp := none, otpExpiry := none }],
       .okToken (generateToken 4) 4 "g@x.com" "Gia") ∧
    googleAuth [{ id := 4, email := "g@x.com", name := "Gia" }]
        (some { sub := "s1", email := "g@x.com", name := "Gia" }) 9 =
      ([{ id := 4, email := "g@x.com", name := "Gia" }],
       .okToken (generateToken 4) 4 "g@x.com" "Gia") :=
  ⟨rfl, by decide,
   (C3_googleAuth_provisioning [] ⟨"s1", "g@x.com", "Gia"⟩ 4).1 rfl,
   (C3_googleAuth_provisioning [{ id := 4, email := "g@x.com", name := "Gia" }]
      ⟨"s1", "g@x.com", "Gia"⟩ 9).2
     { id := 4, email := "g@x.com", name := "Gia" } (by decide)⟩

/-- C9: when GoogleAuth finds an existing User by the verified email it
performs no write at all — the store is unchanged, so a previously absent
googleId stays absent and isVerified keeps its old value — and a token is
issued for that User with no requirement that the account be verified. -/
theorem C9_googleAuth_existing_no_write (store : Store) (p : GooglePayload)
    (newId : Nat) (u : UserDoc) (hfound : findOne store p.email = some u) :
    (googleAuth store (some p) newId).1 = store ∧
    (googleAuth store (some p) newId).2 =
      .okToken (generateToken u.id) u.id u.email u.name ∧
    findOne (googleAuth store (some p) newId).1 p.email = some u := by
  simp only [googleAuth]
  rw [hfound]
  exact ⟨rfl, rfl, hfound⟩

/-- C9 witness: the found account is unverified, has a password hash and no
googleId; a token is still issued and the record is untouched. -/
theorem C9_googleAuth_existing_no_write_witness :
    findOne [bobUser] "b@x.com" = some bobUser ∧
    bobUser.isVerified = false ∧ bobUser.googleId = none ∧
    (googleAuth [bobUser] (some ⟨"s2", "b@x.com", "Bob"⟩) 8).1 = [bobUser] :=
  ⟨by decide, rfl, rfl,
   (C9_googleAuth_existing_no_write [bobUser] ⟨"s2", "b@x.com", "Bob"⟩ 8
      bobUser (by decide)).1⟩

theorem passwordsPreserved_refl (s : Store) : passwordsPreserved s s :=
  fun v hv => ⟨v, hv, rfl, rfl⟩

/-- Writing back a document whose password is copied from a stored
document preserves all stored passwords. -/
theorem passwordsPreserved_saveReplace (store : Store) (w u : UserDoc)
    (hu : u ∈ store) (hid : u.id = w.id) (hpw : u.password = w.password) :
    passwordsPreserved store (saveReplace store w) := by
  intro v hv
  simp only [saveReplace, List.mem_map] at hv
  obtain ⟨x, hx, hxe⟩ := hv
  by_cases hc : x.id = w.id
  · rw [if_pos hc] at hxe
    exact ⟨u, hu, by rw [hid, hxe], by rw [hpw, hxe]⟩
  · rw [if_neg hc] at hxe
    exact ⟨x, hx, by rw [hxe], by rw [hxe]⟩

/-- C5: the only operation given a plaintext password (Signup) persists it
as the bcrypt cost-10 hash, which differs from the plaintext; every other
operation copies each stored password unchanged from a same-id document
(GoogleAuth may additionally append its new password-less User). -/
theorem C5_password_hashing (store : Store) (email name pwd : String)
    (dob : Option Nat) (r : ℚ) (now newId salt : Nat) (ok : Bool)
    (hpwd : pwd ≠ "")
    (hfresh : findOne store email = none) :
    (signup store email name dob pwd r now newId salt ok).1 =
      store ++ [{ id := newId, email := email, name := name,
                  dateOfBirth := dob,
                  password := some (bcryptHash 10 salt pwd),
                  googleId := none, isVerified := false,
                  otp := some (generateOTP r),
                  otpExpiry := some (now + otpWindowMs) }] ∧
    bcryptHash 10 salt pwd ≠ pwd ∧
    (∀ uid c now2, passwordsPreserved store (verifyOTP store uid c now2).1) ∧
    (∀ em r2 now2 ok2,
      passwordsPreserved store (signin store em r2 now2 ok2).1) ∧
    (∀ uid r3 now3 ok3,
      passwordsPreserved store (resendOTP store uid r3 now3 ok3).1) ∧
    (∀ pay nid, ∀ v ∈ (googleAuth store pay nid).1,
      v.password = none ∨
        ∃ v₀ ∈ store, v₀.id = v.id ∧ v₀.password = v.password) := by
  refine ⟨?_, bcryptHash_ne_plain 10 salt pwd, ?_, ?_, ?_, ?_⟩
  · simp only [signup]
    rw [hfresh]
    cases ok <;> simp [preSave, hpwd]
  · intro uid c now2
    cases hf : findById store uid with
    | none => simp only [verifyOTP]; rw [hf]; exact passwordsPreserved_refl store
    | some u =>
      obtain ⟨hmem, _⟩ := findById_mem_and_id store uid u hf
      cases hchk : otpCheckFails u c now2 with
      | true =>
        have hpost : (verifyOTP store uid c now2).1 = store := by
          simp only [verifyOTP]
          rw [hf]
          simp [hchk]
        rw [hpost]
        exact passwordsPreserved_refl store
      | false =>
        have hpost : (verifyOTP store uid c now2).1 =
            saveReplace store
              { u with isVerified := true, otp := none, otpExpiry := none } := by
          simp only [verifyOTP]
          rw [hf]
          simp [hchk, preSave_not_modified]
        rw [hpost]
        exact passwordsPreserved_saveReplace store _ u hmem rfl rfl
  · intro em r2 now2 ok2
    cases hf : findOne store em with
    | none => simp only [signin]; rw [hf]; exact passwordsPreserved_refl store
    | some u =>
      obtain ⟨hmem, _⟩ := findOne_mem_and_email store em u hf
      have hpost : (signin store em r2 now2 ok2).1 =
          saveReplace store { u with otp := some (generateOTP r2),
                                     otpExpiry := some (now2 + otpWindowMs) } := by
        simp only [signin]
        rw [hf]
        cases ok2 <;> simp [preSave_not_modified]
      rw [hpost]
      exact passwordsPreserved_saveReplace store _ u hmem rfl rfl
  · intro uid r3 now3 ok3
    cases hf : findById store uid with
    | none => simp only [resendOTP]; rw [hf]; exact passwordsPreserved_refl store
    | some u =>
      obtain ⟨hmem, _⟩ := findById_mem_and_id store uid u hf
      have hpost : (resendOTP store uid r3 now3 ok3).1 =
          saveReplace store { u with otp := some (generateOTP r3),
                                     otpExpiry := some (now3 + otpWindowMs) } := by
        simp only [resendOTP]
        rw [hf]
        cases ok3 <;> simp [preSave_not_modified]
      rw [hpost]
      exact passwordsPreserved_saveReplace store _ u hmem rfl rfl
  · intro pay nid v hv
    match pay with
    | none =>
      simp only [googleAuth] at hv
      exact Or.inr ⟨v, hv, rfl, rfl⟩
    | some p =>
      simp only [googleAuth] at hv
      cases hf : findOne store p.email with
      | some u =>
        rw [hf] at hv
        exact Or.inr ⟨v, hv, rfl, rfl⟩
      | none =>
        rw [hf] at hv
        simp only [preSave] at hv
        rcases List.mem_append.mp hv with h | h
        · exact Or.inr ⟨v, h, rfl, rfl⟩
        · have hveq := List.mem_singleton.mp h
          subst hveq
          left
          simp

/-- C5 witness: a concrete signup on the empty store. -/
theorem C5_password_hashing_witness :
    ("secret1" : String) ≠ "" ∧
    findOne [] "a@x.com" = none ∧
    (signup [] "a@x.com" "Ann" none "secret1" (1/2) 0 9 4 true).1 =
      [] ++ [{ id := 9, email := "a@x.com", name := "Ann",
               dateOfBirth := none,
               password := some (bcryptHash 10 4 "secret1"),
               googleId := none, isVerified := false,
               otp := some (generateOTP (1/2)),
               otpExpiry := some (0 + otpWindowMs) }] :=
  ⟨by decide, rfl,
   (C5_password_hashing [] "a@x.com" "Ann" "secret1" none (1/2) 0 9 4 true
      (by decide) rfl).1⟩

theorem storeInv_append_singleton (s : Store) (u : UserDoc)
    (hs : storeInv s) (hu : otpPaired u) : storeInv (s ++ [u]) := by
  intro v hv
  rcases List.mem_append.mp hv with h | h
  · exact hs v h
  · have hveq := List.mem_singleton.mp h
    subst hveq
    exact hu

theorem storeInv_saveReplace (s : Store) (u : UserDoc)
    (hs : storeInv s) (hu : otpPaired u) : storeInv (saveReplace s u) := by
  intro v hv
  simp only [saveReplace, List.mem_map] at hv
  obtain ⟨x, hx, hxe⟩ := hv
  by_cases hc : x.id = u.id
  · rw [if_pos hc] at hxe
    rw [← hxe]
    exact hu
  · rw [if_neg hc] at hxe
    rw [← hxe]
    exact hs x hx

theorem otpPaired_preSave (m : Bool) (salt : Nat) (u : UserDoc)
    (h : otpPaired u) : otpPaired (preSave m salt u) := by
  unfold otpPaired
  rw [preSave_otp, preSave_otpExpiry]
  exact h

/-- C6: all five operations preserve the invariant that otp and otpExpiry
are both present or both absent on every stored document: the issuing
operations set both in the one write, successful VerifyOTP clears both in
the one write, GoogleAuth writes neither field. -/
theorem C6_otp_pairing (store : Store) (hinv : storeInv store) :
    (∀ email name dob pwd r now newId salt ok,
      storeInv (signup store email name dob pwd r now newId salt ok).1) ∧
    (∀ uid c now, storeInv (verifyOTP store uid c now).1) ∧
    (∀ email r now ok, storeInv (signin store email r now ok).1) ∧
    (∀ uid r now ok, storeInv (resendOTP store uid r now ok).1) ∧
    (∀ pay newId, storeInv (googleAuth store pay newId).1) := by
  refine ⟨?_, ?_, ?_, ?_, ?_⟩
  · intro email name dob pwd r now newId salt ok
    cases hf : findOne store email with
    | some u =>
      have hpost : (signup store email name dob pwd r now newId salt ok).1 =
          store := by
        simp only [signup]
        rw [hf]
      rw [hpost]
      exact hinv
    | none =>
      have hpost : (signup store email name dob pwd r now newId salt ok).1 =
          store ++ [preSave true salt
            { id := newId, email := email, name := name, dateOfBirth := dob,
              password := some pwd, googleId := none, isVerified := false,
              otp := some (generateOTP r),
              otpExpiry := some (now + otpWindowMs) }] := by
        simp only [signup]
        rw [hf]
        cases ok <;> rfl
      rw [hpost]
      exact storeInv_append_singleton store _ hinv
        (otpPaired_preSave true salt _ rfl)
  · intro uid c now
    cases hf : findById store uid with
    | none =>
      have hpost : (verifyOTP store uid c now).1 = store := by
        simp only [verifyOTP]
        rw [hf]
      rw [hpost]
      exact hinv
    | some u =>
      cases hchk : otpCheckFails u c now with
      | true =>
        have hpost : (verifyOTP store uid c now).1 = store := by
          simp only [verifyOTP]
          rw [hf]
          simp [hchk]
        rw [hpost]
        exact hinv
      | false =>
        have hpost : (verifyOTP store uid c now).1 =
            saveReplace store (preSave false 0
              { u with isVerified := true, otp := none, otpExpiry := none }) := by
          simp only [verifyOTP]
          rw [hf]
          simp [hchk]
        rw [hpost]
        exact storeInv_saveReplace store _ hinv
          (otpPaired_preSave false 0 _ rfl)
  · intro email r now ok
    cases hf : findOne store email with
    | none =>
      have hpost : (signin store email r now ok).1 = store := by
        simp only [signin]
        rw [hf]
      rw [hpost]
      exact hinv
    | some u =>
      have hpost : (signin store email r now ok).1 =
          saveReplace store (preSave false 0
            { u with otp := some (generateOTP r),
                     otpExpiry := some (now + otpWindowMs) }) := by
        simp only [signin]
        rw [hf]
        cases ok <;> rfl
      rw [hpost]
      exact storeInv_saveReplace store _ hinv (otpPaired_preSave false 0 _ rfl)
  · intro uid r now ok
    cases hf : findById store uid with
    | none =>
      have hpost : (resendOTP store uid r now ok).1 = store := by
        simp only [resendOTP]
        rw [hf]
      rw [hpost]
      exact hinv
    | some u =>
      have hpost : (resendOTP store uid r now ok).1 =
          saveReplace store (preSave false 0
            { u with otp := some (generateOTP r),
                     otpExpiry := some (now + otpWindowMs) }) := by
        simp only [resendOTP]
        rw [hf]
        cases ok <;> rfl
      rw [hpost]
      exact storeInv_saveReplace store _ hinv (otpPaired_preSave false 0 _ rfl)
  · intro pay newId
    match pay with
    | none =>
      have hpost : (googleAuth store none newId).1 = store := rfl
      rw [hpost]
      exact hinv
    | some p =>
      cases hf : findOne store p.email with
      | some u =>
        have hpost : (googleAuth store (some p) newId).1 = store := by
          simp only [googleAuth]
          rw [hf]
        rw [hpost]
        exact hinv
      | none =>
        have hpost : (googleAuth store (some p) newId).1 =
            store ++ [preSave true 0
              { id := newId, email := p.email, name := p.name,
                dateOfBirth := none, password := none,
                googleId := some p.sub, isVerified := true,
                otp := none, otpExpiry := none }] := by
          simp only [googleAuth]
          rw [hf]
        rw [hpost]
        exact storeInv_append_singleton store _ hinv
          (otpPaired_preSave true 0 _ rfl)

/-- C6 witness: the invariant holds of the empty store and is preserved by
a concrete signup. -/
theorem C6_otp_pairing_witness :
    storeInv ([] : Store) ∧
    storeInv (signup [] "a@x.com" "Ann" none "secret1" (1/2) 0 9 4 true).1 :=
  ⟨fun v hv => absurd hv (List.not_mem_nil v),
   (C6_otp_pairing [] (fun v hv => absurd hv (List.not_mem_nil v))).1
     "a@x.com" "Ann" none "secret1" (1/2) 0 9 4 true⟩

/-- The draw 23456/900000 makes `generateOTP` produce "123456". -/
theorem generateOTP_collision : generateOTP (23456 / 900000 : ℚ) = "123456" := by
  have hn : genOTPNat (23456 / 900000 : ℚ) = 123456 := by
    unfold genOTPNat
    have harg : (100000 : ℚ) + 23456 / 900000 * 900000 =
        ((123456 : Nat) : ℚ) := by
      norm_num
    rw [harg, Int.floor_natCast, Int.toNat_natCast]
  unfold generateOTP
  rw [hn]
  decide

/-- C7 counterexample: the claim says that after a reissue the previously
issued code never verifies; but the random generator can draw the same
code again (here the draw 23456/900000 regenerates "123456"), after which
VerifyOTP with the previously issued code succeeds. -/
theorem C7_reissue_collision_counterexample :
    (verifyOTP ((resendOTP c7Store 1 (23456 / 900000 : ℚ) 600000 true).1)
        1 "123456" 600001).2 =
      .okToken (generateToken 1) 1 "a@x.com" "Ann" := by
  have hs : (resendOTP c7Store 1 (23456 / 900000 : ℚ) 600000 true).1 =
      [{ id := 1, email := "a@x.com", name := "Ann", password := some "ph",
         otp := some "123456", otpExpiry := some 1200000 }] := by
    simp only [resendOTP]
    rw [show findById c7Store 1 = some
      { id := 1, email := "a@x.com", name := "Ann", password := some "ph",
        otp := some "123456", otpExpiry := some 600000 } from by decide]
    simp [saveReplace, c7Store, preSave_not_modified, otpWindowMs,
      generateOTP_collision]
  rw [hs]
  decide

/-- A successful token-issuing VerifyOTP implies the supplied code equals
the stored one. -/
theorem verifyOTP_token_implies_match (store : Store) (uid : Nat)
    (w : UserDoc) (c : String) (tnow : Nat)
    (hfind : findById store uid = some w)
    (t : SessionToken) (i : Nat) (em nm : String)
    (h : (verifyOTP store uid c tnow).2 = .okToken t i em nm) :
    w.otp = some c := by
  cases hchk : otpCheckFails w c tnow with
  | true =>
    have herr : (verifyOTP store uid c tnow).2 =
        .err 400 "Invalid or expired OTP" := by
      simp only [verifyOTP]
      rw [hfind]
      simp [hchk]
    rw [herr] at h
    exact absurd h (by simp)
  | false =>
    exact ((otpCheckFails_eq_false_iff w c tnow).mp hchk).1

/-- C7 (amended): issuing a new OTP (Signin or ResendOTP) overwrites the
stored challenge with exactly the new code and fresh expiry — at most one
challenge is outstanding — and a subsequent VerifyOTP succeeds only for a
code equal to the newly issued one (the previous code is invalidated
unless the new draw happens to equal it). -/
theorem C7_reissue_overwrites (store : Store) (uid : Nat) (u : UserDoc)
    (r : ℚ) (now : Nat) (ok : Bool) (c : String)
    (hfind : findById store uid = some u)
    (store2 : Store) (em2 : String) (u2 : UserDoc) (r2 : ℚ) (now2 : Nat)
    (ok2 : Bool) (hem2 : findOne store2 em2 = some u2) :
    findById (resendOTP store uid r now ok).1 uid =
      some { u with otp := some (generateOTP r),
                    otpExpiry := some (now + otpWindowMs) } ∧
    (∀ t i em nm tnow,
      (verifyOTP (resendOTP store uid r now ok).1 uid c tnow).2 =
        .okToken t i em nm → c = generateOTP r) ∧
    (signin store2 em2 r2 now2 ok2).1 =
      saveReplace store2 { u2 with otp := some (generateOTP r2),
                                   otpExpiry := some (now2 + otpWindowMs) } := by
  have hpost : (resendOTP store uid r now ok).1 =
      saveReplace store { u with otp := some (generateOTP r),
                                 otpExpiry := some (now + otpWindowMs) } := by
    simp only [resendOTP]
    rw [hfind]
    cases ok <;> simp [preSave_not_modified]
  have hfind' : findById (resendOTP store uid r now ok).1 uid =
      some { u with otp := some (generateOTP r),
                    otpExpiry := some (now + otpWindowMs) } := by
    rw [hpost]
    exact findById_saveReplace store uid u _ hfind rfl
  refine ⟨hfind', ?_, ?_⟩
  · intro t i em nm tnow h
    have hmatch := verifyOTP_token_implies_match _ uid _ c tnow hfind' t i em nm h
    have h2 : some (generateOTP r) = some c := hmatch
    exact (Option.some_inj.mp h2).symm
  · simp only [signin]
    rw [hem2]
    cases ok2 <;> simp [preSave_not_modified]

/-- C7 witness: a concrete reissue over an outstanding challenge. -/
theorem C7_reissue_overwrites_witness :
    findById c7Store 1 = some
      { id := 1, email := "a@x.com", name := "Ann", password := some "ph",
        otp := some "123456", otpExpiry := some 600000 } ∧
    findOne [bobUser] "b@x.com" = some bobUser ∧
    findById (resendOTP c7Store 1 (1/3) 0 true).1 1 =
      some { id := 1, email := "a@x.com", name := "Ann",
             password := some "ph", otp := some (generateOTP (1/3)),
             otpExpiry := some (0 + otpWindowMs) } :=
  ⟨by decide, by decide,
   (C7_reissue_overwrites c7Store 1
      { id := 1, email := "a@x.com", name := "Ann", password := some "ph",
        otp := some "123456", otpExpiry := some 600000 }
      (1/3) 0 true "x" (by decide)
      [bobUser] "b@x.com" bobUser (1/4) 7 true (by decide)).1⟩

theorem find?_singleton_pos {α : Type} (p : α → Bool) (a : α)
    (h : p a = true) : [a].find? p = some a := by
  simp [List.find?, h]

/-- C10: when the notification dispatch fails after the save, Signup
reports the 500 error but the new User — challenge fields included —
remains persisted, and a retry with the same email is rejected as a
duplicate. -/
theorem C10_signup_dispatch_failure (store : Store) (email name pwd : String)
    (dob : Option Nat) (r : ℚ) (now newId salt : Nat)
    (hfresh : findOne store email = none) :
    (signup store email name dob pwd r now newId salt false).2 =
      .err 500 "Failed to create account" ∧
    (signup store email name dob pwd r now newId salt false).1 =
      store ++ [preSave true salt
        { id := newId, email := email, name := name, dateOfBirth := dob,
          password := some pwd, googleId := none, isVerified := false,
          otp := some (generateOTP r),
          otpExpiry := some (now + otpWindowMs) }] ∧
    (preSave true salt
        { id := newId, email := email, name := name, dateOfBirth := dob,
          password := some pwd, googleId := none, isVerified := false,
          otp := some (generateOTP r),
          otpExpiry := some (now + otpWindowMs) }).otp =
      some (generateOTP r) ∧
    (preSave true salt
        { id := newId, email := email, name := name, dateOfBirth := dob,
          password := some pwd, googleId := none, isVerified := false,
          otp := some (generateOTP r),
          otpExpiry := some (now + otpWindowMs) }).otpExpiry =
      some (now + otpWindowMs) ∧
    (∀ name2 dob2 pwd2 r2 now2 newId2 salt2 ok2,
      signup ((signup store email name dob pwd r now newId salt false).1)
          email name2 dob2 pwd2 r2 now2 newId2 salt2 ok2 =
        ((signup store email name dob pwd r now newId salt false).1,
         .err 400 "User already exists")) := by
  have hpost : (signup store email name dob pwd r now newId salt false).1 =
      store ++ [preSave true salt
        { id := newId, email := email, name := name, dateOfBirth := dob,
          password := some pwd, googleId := none, isVerified := false,
          otp := some (generateOTP r),
          otpExpiry := some (now + otpWindowMs) }] := by
    simp only [signup]
    rw [hfresh]
    rfl
  have herr : (signup store email name dob pwd r now newId salt false).2 =
      .err 500 "Failed to create account" := by
    simp only [signup]
    rw [hfresh]
    rfl
  have hmail : findOne (signup store email name dob pwd r now newId salt
        false).1 email =
      some (preSave true salt
        { id := newId, email := email, name := name, dateOfBirth := dob,
          password := some pwd, googleId := none, isVerified := false,
          otp := some (generateOTP r),
          otpExpiry := some (now + otpWindowMs) }) := by
    rw [hpost]
    unfold findOne
    rw [find?_append_of_none _ store _ hfresh]
    apply find?_singleton_pos
    rw [preSave_email]
    exact beq_self_eq_true email
  refine ⟨herr, hpost, ?_, ?_, ?_⟩
  · rw [preSave_otp]
  · rw [preSave_otpExpiry]
  · intro name2 dob2 pwd2 r2 now2 newId2 salt2 ok2
    generalize hS : (signup store email name dob pwd r now newId salt
      false).1 = S at hmail ⊢
    simp only [signup]
    rw [hmail]

/-- C10 witness: a concrete failed-dispatch signup on the empty store. -/
theorem C10_signup_dispatch_failure_witness :
    findOne [] "a@x.com" = none ∧
    (signup [] "a@x.com" "Ann" none "secret1" (1/2) 0 9 4 false).2 =
      .err 500 "Failed to create account" :=
  ⟨rfl,
   (C10_signup_dispatch_failure [] "a@x.com" "Ann" "secret1" none (1/2)
      0 9 4 rfl).1⟩
